import Mathlib

/-!
Verification of the marimo helix keymap integration
(`src/frontend/src/core/codemirror/keymaps/helix.ts`, together with the
unnamed near-duplicate implementation shipped in the same repository).

The embedding is shallow: the mode value tracked by `helixModeField`, the
main selection and the document length become a small `EditorState`
record; each key handler becomes a pure function returning whether it
handled the key plus the host actions it invoked; the cross-cell mode
synchronisation (`HelixModeSync`) becomes an explicit state-passing model
of the registry, the `isBroadcasting` flag, the deferred `onIdle`
callback and the per-follower `view.dispatch` calls.
-/

namespace HelixSpec

/-- The value stored in `helixModeField`: `type` is the major mode
(0 = Normal, 1 = Insert, 4 = Select), `minor` the minor mode
(2 = Normal, 3 = Goto, 5 = Match, 6 = Space). -/
structure HelixModeState where
  type : Nat
  minor : Nat
  deriving DecidableEq, Repr

/-- The main selection of an editor state: `«from»` and `to` offsets
(`state.selection.main.from` / `.to`). -/
structure MainSelection where
  «from» : Nat
  «to» : Nat
  deriving DecidableEq, Repr

/-- The slice of a CodeMirror editor state that the helix keymap reads:
the helix mode field (`none` models `view.state.field(helixModeField, false)`
returning `undefined` because the field is not installed), the document
length, the main selection, and the `cellIdState` facet value.
`dispatched` is a ghost log of the mode-set effects dispatched by the
integration layer itself (`view.dispatch({effects: modeEffectType.of(...)})`);
the field update reacting to such an effect replaces `mode` with the
effect's value. -/
structure EditorState where
  mode : Option HelixModeState
  docLength : Nat
  sel : MainSelection
  cellId : Nat
  dispatched : List HelixModeState
  deriving DecidableEq, Repr

/-- helix.ts line 34: `(view.state.field(helixModeField, false)?.type ?? 0) === 0`. -/
def isInHelixNormalMode (s : EditorState) : Bool :=
  ((s.mode.map HelixModeState.type).getD 0) == 0

/-- helix.ts line 38: `(view.state.field(helixModeField, false)?.type ?? 0) === 1`. -/
def isInHelixInsertMode (s : EditorState) : Bool :=
  ((s.mode.map HelixModeState.type).getD 0) == 1

/-- helix.ts line 48: `main.from === 0 && isInHelixNormalMode(view)`. -/
def isAtStartOfEditorHelix (s : EditorState) : Bool :=
  s.sel.«from» == 0 && isInHelixNormalMode s

/-- helix.ts line 53: `main.to >= docLength && isInHelixNormalMode(view)`. -/
def isAtEndOfEditorHelix (s : EditorState) : Bool :=
  decide (s.docLength ≤ s.sel.«to») && isInHelixNormalMode s

/-- helix.ts line 97: the integration layer force-dispatches a mode-set
effect; `helixModeField.update` sees the effect and returns its value. -/
def dispatchModeEffect (s : EditorState) (m : HelixModeState) : EditorState :=
  { s with mode := some m, dispatched := s.dispatched ++ [m] }

/-- Arguments of one `actions.moveToNextCell` call (helix.ts lines 75 and 85). -/
structure MoveToNextCellArgs where
  cellId : Nat
  before : Bool
  noCreate : Bool
  deriving DecidableEq, Repr

/-- The `j` key handler (helix.ts lines 69-78): returns whether it handled
the key together with the `moveToNextCell` calls it made. -/
def runJ (s : EditorState) : Bool × List MoveToNextCellArgs :=
  if !(isAtEndOfEditorHelix s) then (false, [])
  else (true, [{ cellId := s.cellId, before := false, noCreate := true }])

/-- The `k` key handler (helix.ts lines 79-88). -/
def runK (s : EditorState) : Bool × List MoveToNextCellArgs :=
  if !(isAtStartOfEditorHelix s) then (false, [])
  else (true, [{ cellId := s.cellId, before := true, noCreate := true }])

/-- The shape of the Ctrl-[ key binding object (helix.ts lines 92-100):
it carries `linux` and `win` key specifications only — no `key` and no
`mac` entry, so the binding is registered only on Linux and Windows. -/
structure KeyBindingSpec where
  key : Option String
  mac : Option String
  linux : Option String
  win : Option String
  deriving DecidableEq, Repr

/-- The Ctrl-[ binding's platform fields as written in helix.ts. -/
def ctrlBracketBinding : KeyBindingSpec :=
  { key := none, mac := none, linux := some "Ctrl-[", win := some "Ctrl-[" }

/-- The Ctrl-[ `run` handler (helix.ts lines 95-99). -/
def ctrlBracketRun (s : EditorState) : Bool × EditorState :=
  if !(isInHelixInsertMode s) then (false, s)
  else (true, dispatchModeEffect s ⟨0, 2⟩)

/-- One editor instance as seen by `goToDefinitionKeymap` (helix.ts lines
162-194): the closure-local `awaitingGotoKey` flag plus the editor state.
The flag is created per call of `goToDefinitionKeymap()`, i.e. per editor
instance, so two instances have independent flags. -/
structure GdInstance where
  awaiting : Bool
  ed : EditorState
  deriving DecidableEq, Repr

/-- Modelled from the spec: the third-party helix engine (codemirror-helix,
not part of this repository) receives a forwarded `g` in Normal major mode
and enters the Goto minor mode (minor = 3), dispatching its own mode
effect (which is not a dispatch of the integration layer, hence not in the
ghost `dispatched` log). -/
def engineHandleG (s : EditorState) : EditorState :=
  if ((s.mode.map HelixModeState.type).getD 0) == 0 then
    { s with mode := some ⟨0, 3⟩ }
  else s

/-- Pressing `g`: the interceptor's `g` binding runs first (Prec.high),
sets the flag when `isInHelixNormalMode` holds and returns false, so the
key is forwarded to the engine. Result: (new instance, number of
`goToDefinitionAtCursorPosition` calls, handled-by-interceptor flag). -/
def gdPressG (inst : GdInstance) : GdInstance × Nat × Bool :=
  let awaiting' := if isInHelixNormalMode inst.ed then true else inst.awaiting
  (⟨awaiting', engineHandleG inst.ed⟩, 0, false)

/-- Pressing `d` (helix.ts lines 173-186). `engineD` is the arbitrary
behaviour of the engine's own `d` binding, which runs only when the
interceptor returns false. -/
def gdPressD (engineD : EditorState → EditorState) (inst : GdInstance) :
    GdInstance × Nat × Bool :=
  if inst.awaiting = false then (⟨inst.awaiting, engineD inst.ed⟩, 0, false)
  else if ((inst.ed.mode.map HelixModeState.type).getD 0) != 0 then
    (⟨false, engineD inst.ed⟩, 0, false)
  else
    (⟨false, dispatchModeEffect inst.ed ⟨0, 2⟩⟩, 1, true)

/-- Pressing any key other than `g`/`d`: the keymap's `any` handler
(helix.ts lines 187-192) clears the flag and returns false; `engineX` is
the engine's arbitrary handling of that key. -/
def gdPressOther (engineX : EditorState → EditorState) (inst : GdInstance) :
    GdInstance × Nat × Bool :=
  (⟨false, engineX inst.ed⟩, 0, false)

/-- One registered editor view in `HelixModeSync.INSTANCES`: its identity,
its current helix mode value, and whether a `view.dispatch` on it throws
(modelling a view that is for example mid-teardown). -/
structure SyncInstance where
  id : Nat
  mode : HelixModeState
  failing : Bool
  deriving DecidableEq, Repr

/-- Applying a mode-set effect to the view with identity `i`: its
`helixModeField` takes the effect's value. -/
def setMode (l : List SyncInstance) (i : Nat) (m : HelixModeState) :
    List SyncInstance :=
  l.map fun inst => if inst.id == i then { inst with mode := m } else inst

/-- Whether dispatching to the view with identity `i` throws. -/
def instFailing (l : List SyncInstance) (i : Nat) : Bool :=
  match l.find? (fun inst => inst.id == i) with
  | some inst => inst.failing
  | none => false

/-- The mode currently held by the view with identity `i`. -/
def findMode (l : List SyncInstance) (i : Nat) : Option HelixModeState :=
  (l.find? (fun inst => inst.id == i)).map SyncInstance.mode

/-- The shared state of the mode-sync machinery: the registry of mounted
views, the module-wide `isBroadcasting` flag, the deferred `onIdle`
callbacks not yet run (origin identity and mode to broadcast), a counter
of settled broadcasts, and ghost logs of the per-follower force-set
dispatches attempted (`forced`) and of the `Logger.warn` calls emitted
with the caught exception (`warnings`, recording the follower whose
dispatch threw). -/
structure SyncState where
  instances : List SyncInstance
  isBroadcasting : Bool
  pending : List (Nat × HelixModeState)
  settled : Nat
  forced : List Nat
  warnings : List Nat
  deriving DecidableEq, Repr

/-- The mode-sync ViewPlugin's `update` callback (helix.ts lines 134-146),
run for view `i` whenever a transaction changed its mode field from `prev`
to `next`: if major or minor differs and no broadcast is in flight, set the
flag and defer a broadcast via `onIdle`. -/
def modeSyncUpdate (st : SyncState) (i : Nat) (prev next : HelixModeState) :
    SyncState :=
  if prev.type != next.type || prev.minor != next.minor then
    if st.isBroadcasting then st
    else { st with isBroadcasting := true, pending := st.pending ++ [(i, next)] }
  else st

/-- A `view.dispatch` carrying a mode-set effect on view `i`: the field
updates and the plugin's `update` callback observes the transition
synchronously (within the dispatch). -/
def applySyncDispatch (st : SyncState) (i : Nat) (m : HelixModeState) :
    SyncState :=
  match findMode st.instances i with
  | none => st
  | some prev =>
      modeSyncUpdate { st with instances := setMode st.instances i m } i prev m

/-- The loop of `HelixModeSync.broadcastModeChange` (helix.ts lines
230-239) over the snapshot `ids` of registered views: skip the origin,
otherwise try to force-set the view's mode; a throwing dispatch is caught
and logged (`Logger.warn`) and the iteration continues. -/
def broadcastGo (origin : Nat) (m : HelixModeState) :
    List Nat → SyncState → SyncState
  | [], st => st
  | j :: rest, st =>
      if j == origin then broadcastGo origin m rest st
      else if instFailing st.instances j then
        broadcastGo origin m rest
          { st with forced := st.forced ++ [j], warnings := st.warnings ++ [j] }
      else
        broadcastGo origin m rest
          (applySyncDispatch { st with forced := st.forced ++ [j] } j m)

/-- `HelixModeSync.broadcastModeChange(origin, mode)`. -/
def broadcastModeChange (st : SyncState) (origin : Nat) (m : HelixModeState) :
    SyncState :=
  broadcastGo origin m (st.instances.map SyncInstance.id) st

/-- Running the deferred `onIdle` callback (helix.ts lines 141-144): the
broadcast executes, then the `isBroadcasting` flag is cleared; one
broadcast settles. -/
def runIdle (st : SyncState) : SyncState :=
  match st.pending with
  | [] => st
  | (i, m) :: rest =>
      let st1 := broadcastModeChange { st with pending := rest } i m
      { st1 with isBroadcasting := false, settled := st1.settled + 1 }

/-- One primary local mode change on view `i` (a user-initiated dispatch
carrying the new mode, observed by the plugin update) followed by running
the deferred `onIdle` broadcast. -/
def settleLocalChange (st : SyncState) (i : Nat) (m : HelixModeState) :
    SyncState :=
  runIdle (applySyncDispatch st i m)

end HelixSpec

namespace HelixAlt

open HelixSpec

/-- The unnamed duplicate implementation's normal-mode check
(part_000 lines 78-83): a missing field counts as normal, and a present
mode must have major mode Normal AND minor mode Normal. -/
def isInHelixNormalMode (s : EditorState) : Bool :=
  match s.mode with
  | none => true
  | some m => m.type == 0 && m.minor == 2

end HelixAlt

namespace HelixSpec

/-- C1: the claim requires `isInHelixNormalMode` to be false whenever the
major mode is Normal but the minor mode is not Normal (e.g. Goto, minor = 3).
helix.ts's implementation inspects only the major mode and returns true on
such a state, while the duplicate implementation — and the repository's own
test `returns false for goto minor mode in isInHelixNormalMode` — return
false. Evaluating both implementations at the failing input Mode
{type = 0 (Normal), minor = 3 (Goto)} exhibits the divergence. -/
theorem c1_normalMode_ignores_minor :
    isInHelixNormalMode
        { mode := some ⟨0, 3⟩, docLength := 5, sel := ⟨0, 1⟩,
          cellId := 0, dispatched := [] } = true ∧
      HelixAlt.isInHelixNormalMode
        { mode := some ⟨0, 3⟩, docLength := 5, sel := ⟨0, 1⟩,
          cellId := 0, dispatched := [] } = false := by
  decide

/-- C5 counterexample: the claim says the end-of-buffer predicate is
trivially true on an empty buffer regardless of the current mode, but
helix.ts's `isAtEndOfEditorHelix` also requires Normal (major) mode: on an
empty buffer in Insert mode it returns false. -/
theorem c5_empty_buffer_insert_mode_not_at_end :
    isAtEndOfEditorHelix
      { mode := some ⟨1, 2⟩, docLength := 0, sel := ⟨0, 0⟩,
        cellId := 0, dispatched := [] } = false := by
  decide

/-- C5 (amended): for every editor state with a valid selection
(end offset ≤ buffer length): on an empty buffer `isAtEndOfEditorHelix` is
true exactly when the editor is in Normal (major) mode; on a buffer of
length L > 0 it is true exactly when the selection's end offset equals L
and the editor is in Normal (major) mode (the start offset is not
constrained). -/
theorem c5_isAtEndOfEditorHelix_characterisation (s : EditorState)
    (hvalid : s.sel.«to» ≤ s.docLength) :
    (s.docLength = 0 →
      (isAtEndOfEditorHelix s = true ↔ isInHelixNormalMode s = true)) ∧
    (0 < s.docLength →
      (isAtEndOfEditorHelix s = true ↔
        (s.sel.«to» = s.docLength ∧ isInHelixNormalMode s = true))) := by
  constructor
  · intro h0
    simp [isAtEndOfEditorHelix, h0]
  · intro _
    simp only [isAtEndOfEditorHelix, Bool.and_eq_true, decide_eq_true_eq]
    constructor
    · rintro ⟨hle, hn⟩
      exact ⟨Nat.le_antisymm hvalid hle, hn⟩
    · rintro ⟨hEq, hn⟩
      exact ⟨Nat.le_of_eq hEq.symm, hn⟩

/-- C5 witness: the characterisation applied at a concrete non-empty
buffer with the one-character-wide normal cursor at the last position. -/
theorem c5_isAtEndOfEditorHelix_characterisation_witness :
    ((2 : Nat) ≤ 2) ∧
      (isAtEndOfEditorHelix
          { mode := some ⟨0, 2⟩, docLength := 2, sel := ⟨1, 2⟩,
            cellId := 0, dispatched := [] } = true ↔
        ((2 : Nat) = 2 ∧
          isInHelixNormalMode
            { mode := some ⟨0, 2⟩, docLength := 2, sel := ⟨1, 2⟩,
              cellId := 0, dispatched := [] } = true)) :=
  ⟨by decide,
    (c5_isAtEndOfEditorHelix_characterisation
      { mode := some ⟨0, 2⟩, docLength := 2, sel := ⟨1, 2⟩,
        cellId := 0, dispatched := [] } (by decide)).2 (by decide)⟩

/-- C7: `isAtStartOfEditorHelix` holds exactly when the main selection's
start offset is 0 and the editor is in Normal mode per the program's
mode predicate; in particular selection (0, 1) in Normal mode is
start-of-buffer while selection (0, 3) in Select mode (major = 4) is not. -/
theorem c7_isAtStartOfEditorHelix_characterisation :
    (∀ s : EditorState,
      isAtStartOfEditorHelix s = true ↔
        (s.sel.«from» = 0 ∧ isInHelixNormalMode s = true)) ∧
    isAtStartOfEditorHelix
      { mode := some ⟨0, 2⟩, docLength := 5, sel := ⟨0, 1⟩,
        cellId := 0, dispatched := [] } = true ∧
    isAtStartOfEditorHelix
      { mode := some ⟨4, 2⟩, docLength := 5, sel := ⟨0, 3⟩,
        cellId := 0, dispatched := [] } = false := by
  refine ⟨fun s => ?_, by decide, by decide⟩
  simp [isAtStartOfEditorHelix]

/-- C7 witness: the characterisation applied at the selection (0, 1) in
Normal mode. -/
theorem c7_isAtStartOfEditorHelix_characterisation_witness :
    isAtStartOfEditorHelix
      { mode := some ⟨0, 2⟩, docLength := 7, sel := ⟨0, 1⟩,
        cellId := 3, dispatched := [] } = true :=
  (c7_isAtStartOfEditorHelix_characterisation.1
    { mode := some ⟨0, 2⟩, docLength := 7, sel := ⟨0, 1⟩,
      cellId := 3, dispatched := [] }).mpr ⟨rfl, rfl⟩

/-- C8: `isInHelixInsertMode` is true exactly when a mode value is present
with major mode Insert (type = 1); an absent mode value makes the insert
check false while it makes `isInHelixNormalMode` true — the asymmetric
defaults. -/
theorem c8_isInHelixInsertMode_characterisation (s : EditorState) :
    (isInHelixInsertMode s = true ↔ ∃ m, s.mode = some m ∧ m.type = 1) ∧
    (s.mode = none →
      isInHelixInsertMode s = false ∧ isInHelixNormalMode s = true) := by
  constructor
  · cases h : s.mode with
    | none => simp [isInHelixInsertMode, h]
    | some m =>
      simp only [isInHelixInsertMode, h, Option.map_some', Option.getD_some,
        beq_iff_eq]
      constructor
      · intro ht; exact ⟨m, rfl, ht⟩
      · rintro ⟨m', hm', ht⟩
        cases hm'
        exact ht
  · intro h
    simp [isInHelixInsertMode, isInHelixNormalMode, h]

/-- C8 witness: the characterisation applied at the absent-mode state. -/
theorem c8_isInHelixInsertMode_characterisation_witness :
    (isInHelixInsertMode
        { mode := none, docLength := 3, sel := ⟨0, 1⟩,
          cellId := 0, dispatched := [] } = false ∧
      isInHelixNormalMode
        { mode := none, docLength := 3, sel := ⟨0, 1⟩,
          cellId := 0, dispatched := [] } = true) :=
  (c8_isInHelixInsertMode_characterisation
    { mode := none, docLength := 3, sel := ⟨0, 1⟩,
      cellId := 0, dispatched := [] }).2 rfl

/-- C3: on a single instance in Normal mode, pressing `g` (forwarded to
the engine, which enters Goto minor mode) and then `d` invokes the
go-to-definition action exactly once, dispatches a forced mode set back to
(Normal, Normal-minor), clears the flag, and fully suppresses `d` (the
handler reports it handled), whatever the engine's own `d` binding would
have done. -/
theorem c3_gd_sequence_fires_once (inst : GdInstance)
    (engineD : EditorState → EditorState)
    (hnormal : isInHelixNormalMode inst.ed = true) :
    let r1 := gdPressG inst
    let r2 := gdPressD engineD r1.1
    r1.2.1 + r2.2.1 = 1 ∧ r1.2.2 = false ∧ r2.2.2 = true ∧
      r2.1.awaiting = false ∧ r2.1.ed.mode = some ⟨0, 2⟩ ∧
      r2.1.ed.dispatched = inst.ed.dispatched ++ [⟨0, 2⟩] := by
  have htype : ((inst.ed.mode.map HelixModeState.type).getD 0) == 0 := by
    simpa [isInHelixNormalMode] using hnormal
  simp [gdPressG, gdPressD, engineHandleG, dispatchModeEffect, hnormal, htype]

/-- C3 witness: the g-then-d sequence on a concrete instance starting in
(Normal, Normal-minor). -/
theorem c3_gd_sequence_fires_once_witness :
    isInHelixNormalMode
        (GdInstance.mk false
          { mode := some ⟨0, 2⟩, docLength := 4, sel := ⟨1, 2⟩,
            cellId := 7, dispatched := [] }).ed = true ∧
      (let r1 := gdPressG
        (GdInstance.mk false
          { mode := some ⟨0, 2⟩, docLength := 4, sel := ⟨1, 2⟩,
            cellId := 7, dispatched := [] })
       let r2 := gdPressD id r1.1
       r1.2.1 + r2.2.1 = 1 ∧ r1.2.2 = false ∧ r2.2.2 = true ∧
         r2.1.awaiting = false ∧ r2.1.ed.mode = some ⟨0, 2⟩ ∧
         r2.1.ed.dispatched =
           (GdInstance.mk false
             { mode := some ⟨0, 2⟩, docLength := 4, sel := ⟨1, 2⟩,
               cellId := 7, dispatched := [] }).ed.dispatched ++ [⟨0, 2⟩]) :=
  ⟨by decide,
    c3_gd_sequence_fires_once
      (GdInstance.mk false
        { mode := some ⟨0, 2⟩, docLength := 4, sel := ⟨1, 2⟩,
          cellId := 7, dispatched := [] }) id (by decide)⟩

/-- C4: the gd interceptor never fires on an interrupted or split
sequence. (a) `g`, then any other key, then `d`: zero invocations, the
flag is reset to Idle, and every key is left unhandled by the interceptor,
for arbitrary engine behaviour on the forwarded keys. (b) the flag is
scoped to one instance: `g` pressed in instance A followed by `d` in
instance B (whose own flag is clear) invokes the action zero times in
either instance. -/
theorem c4_gd_interrupted_or_cross_instance (instA instB : GdInstance)
    (engineX engineD1 engineD2 : EditorState → EditorState)
    (hB : instB.awaiting = false) :
    (let r1 := gdPressG instA
     let r2 := gdPressOther engineX r1.1
     let r3 := gdPressD engineD1 r2.1
     r1.2.1 = 0 ∧ r2.2.1 = 0 ∧ r3.2.1 = 0 ∧
       r1.2.2 = false ∧ r2.2.2 = false ∧ r3.2.2 = false ∧
       r2.1.awaiting = false ∧ r3.1.awaiting = false) ∧
    (let s1 := gdPressG instA
     let s2 := gdPressD engineD2 instB
     s1.2.1 = 0 ∧ s2.2.1 = 0 ∧ s2.2.2 = false) := by
  refine ⟨?_, ?_⟩
  · simp [gdPressG, gdPressOther, gdPressD]
  · simp [gdPressG, gdPressD, hB]

/-- C4 witness: concrete instances, identity engine behaviour. -/
theorem c4_gd_interrupted_or_cross_instance_witness :
    (GdInstance.mk false
        { mode := some ⟨0, 2⟩, docLength := 3, sel := ⟨0, 1⟩,
          cellId := 1, dispatched := [] }).awaiting = false ∧
      ((let r1 := gdPressG
          (GdInstance.mk false
            { mode := some ⟨0, 2⟩, docLength := 2, sel := ⟨0, 1⟩,
              cellId := 0, dispatched := [] })
        let r2 := gdPressOther id r1.1
        let r3 := gdPressD id r2.1
        r1.2.1 = 0 ∧ r2.2.1 = 0 ∧ r3.2.1 = 0 ∧
          r1.2.2 = false ∧ r2.2.2 = false ∧ r3.2.2 = false ∧
          r2.1.awaiting = false ∧ r3.1.awaiting = false) ∧
       (let s1 := gdPressG
          (GdInstance.mk false
            { mode := some ⟨0, 2⟩, docLength := 2, sel := ⟨0, 1⟩,
              cellId := 0, dispatched := [] })
        let s2 := gdPressD id
          (GdInstance.mk false
            { mode := some ⟨0, 2⟩, docLength := 3, sel := ⟨0, 1⟩,
              cellId := 1, dispatched := [] })
        s1.2.1 = 0 ∧ s2.2.1 = 0 ∧ s2.2.2 = false)) :=
  ⟨rfl,
    c4_gd_interrupted_or_cross_instance
      (GdInstance.mk false
        { mode := some ⟨0, 2⟩, docLength := 2, sel := ⟨0, 1⟩,
          cellId := 0, dispatched := [] })
      (GdInstance.mk false
        { mode := some ⟨0, 2⟩, docLength := 3, sel := ⟨0, 1⟩,
          cellId := 1, dispatched := [] })
      id id id rfl⟩

/-- C6: `j` at end-of-buffer in Normal mode (the end predicate, which
includes the Normal-mode check) calls `moveToNextCell` exactly once with
before = false and noCreate = true and consumes the key; `k` at
start-of-buffer calls it exactly once with before = true and noCreate =
true; whenever the corresponding boundary predicate is false — in
particular whenever the major mode is not Normal — the handler makes no
call and leaves the key unhandled. -/
theorem c6_jk_navigation (s : EditorState) :
    (isAtEndOfEditorHelix s = true →
      runJ s = (true, [{ cellId := s.cellId, before := false, noCreate := true }])) ∧
    (isAtEndOfEditorHelix s = false → runJ s = (false, [])) ∧
    (isAtStartOfEditorHelix s = true →
      runK s = (true, [{ cellId := s.cellId, before := true, noCreate := true }])) ∧
    (isAtStartOfEditorHelix s = false → runK s = (false, [])) ∧
    (isInHelixNormalMode s = false →
      runJ s = (false, []) ∧ runK s = (false, [])) := by
  refine ⟨fun h => ?_, fun h => ?_, fun h => ?_, fun h => ?_, fun h => ?_⟩
  · simp [runJ, h]
  · simp [runJ, h]
  · simp [runK, h]
  · simp [runK, h]
  · simp [runJ, runK, isAtEndOfEditorHelix, isAtStartOfEditorHelix, h]

/-- C6 witness: `j` fired at the end boundary of a concrete two-character
buffer in Normal mode. -/
theorem c6_jk_navigation_witness :
    isAtEndOfEditorHelix
        { mode := some ⟨0, 2⟩, docLength := 2, sel := ⟨1, 2⟩,
          cellId := 9, dispatched := [] } = true ∧
      runJ
        { mode := some ⟨0, 2⟩, docLength := 2, sel := ⟨1, 2⟩,
          cellId := 9, dispatched := [] } =
        (true, [{ cellId := 9, before := false, noCreate := true }]) :=
  ⟨by decide,
    (c6_jk_navigation
      { mode := some ⟨0, 2⟩, docLength := 2, sel := ⟨1, 2⟩,
        cellId := 9, dispatched := [] }).1 (by decide)⟩

/-- C10: the Ctrl-[ binding is registered for Linux and Windows only
(no `key`, no `mac` entry), and its handler dispatches a forced mode set
to (Normal, Normal-minor) and consumes the key exactly when
`isInHelixInsertMode` holds, leaving the key unhandled otherwise. -/
theorem c10_ctrlBracket :
    ctrlBracketBinding.linux = some "Ctrl-[" ∧
    ctrlBracketBinding.win = some "Ctrl-[" ∧
    ctrlBracketBinding.mac = none ∧
    ctrlBracketBinding.key = none ∧
    ∀ s : EditorState,
      (isInHelixInsertMode s = true →
        ctrlBracketRun s =
          (true, { s with mode := some ⟨0, 2⟩,
                          dispatched := s.dispatched ++ [⟨0, 2⟩] })) ∧
      (isInHelixInsertMode s = false → ctrlBracketRun s = (false, s)) := by
  refine ⟨rfl, rfl, rfl, rfl, fun s => ⟨fun h => ?_, fun h => ?_⟩⟩
  · simp [ctrlBracketRun, dispatchModeEffect, h]
  · simp [ctrlBracketRun, h]

/-- Force-setting a mode changes no identity and no failing flag. -/
theorem setMode_map_id (l : List SyncInstance) (i : Nat) (m : HelixModeState) :
    (setMode l i m).map SyncInstance.id = l.map SyncInstance.id := by
  unfold setMode
  rw [List.map_map]
  apply List.map_congr_left
  intro a _
  cases h : a.id == i <;> simp [Function.comp, h]

/-- Unfolding the failing-lookup over a cons cell. -/
theorem instFailing_cons (a : SyncInstance) (t : List SyncInstance) (j : Nat) :
    instFailing (a :: t) j =
      if a.id == j then a.failing else instFailing t j := by
  unfold instFailing
  cases h : a.id == j <;> simp [List.find?, h]

/-- Whether a dispatch to view `j` throws is unaffected by force-setting
modes. -/
theorem instFailing_setMode (l : List SyncInstance) (i : Nat)
    (m : HelixModeState) (j : Nat) :
    instFailing (setMode l i m) j = instFailing l j := by
  induction l with
  | nil => rfl
  | cons a t ih =>
    rw [show setMode (a :: t) i m =
        (if (a.id == i) = true then { a with mode := m } else a) ::
          setMode t i m from rfl]
    rw [instFailing_cons, instFailing_cons, ih]
    cases h1 : a.id == i <;> simp [h1]

/-- If no registered view throws on dispatch, no lookup reports a throw. -/
theorem instFailing_eq_false (l : List SyncInstance) (j : Nat)
    (h : ∀ inst ∈ l, inst.failing = false) : instFailing l j = false := by
  induction l with
  | nil => rfl
  | cons a t ih =>
    simp only [instFailing, List.find?] at *
    cases h2 : a.id == j
    · exact ih fun inst hm => h inst (List.mem_cons_of_mem a hm)
    · exact h a (List.mem_cons_self a t)

/-- A reported throw comes from a registered view with that identity whose
dispatch throws. -/
theorem exists_of_instFailing (l : List SyncInstance) (j : Nat)
    (h : instFailing l j = true) :
    ∃ inst ∈ l, inst.id = j ∧ inst.failing = true := by
  unfold instFailing at h
  cases hf : l.find? (fun inst => inst.id == j) with
  | none => rw [hf] at h; exact absurd h (by simp)
  | some inst =>
    rw [hf] at h
    exact ⟨inst, List.mem_of_find?_eq_some hf,
      by simpa using List.find?_some hf, h⟩

/-- The plugin update callback touches only the flag and the deferred
queue. -/
theorem modeSyncUpdate_preserves (st : SyncState) (i : Nat)
    (p n : HelixModeState) :
    (modeSyncUpdate st i p n).instances = st.instances ∧
      (modeSyncUpdate st i p n).settled = st.settled ∧
      (modeSyncUpdate st i p n).forced = st.forced ∧
      (modeSyncUpdate st i p n).warnings = st.warnings := by
  unfold modeSyncUpdate
  split
  · split <;> simp
  · simp

/-- While a broadcast is in flight, the plugin update callback does
nothing at all: the re-entrancy guard suppresses scheduling. -/
theorem modeSyncUpdate_of_broadcasting (st : SyncState) (i : Nat)
    (p n : HelixModeState) (h : st.isBroadcasting = true) :
    modeSyncUpdate st i p n = st := by
  unfold modeSyncUpdate
  split
  · simp [h]
  · rfl

/-- If nothing has identity `j`, force-setting `j` is a no-op. -/
theorem setMode_of_none (l : List SyncInstance) (j : Nat) (m : HelixModeState)
    (h : ∀ inst ∈ l, (inst.id == j) = false) : setMode l j m = l := by
  induction l with
  | nil => rfl
  | cons a t ih =>
    simp only [setMode, List.map_cons] at *
    rw [h a (List.mem_cons_self a t)]
    simp only [Bool.false_eq_true, if_false]
    exact congrArg (a :: ·) (ih fun inst hm => h inst (List.mem_cons_of_mem a hm))

/-- A dispatch on view `j` force-sets `j`'s mode; the synchronously
observed plugin update never touches the registry itself. -/
theorem applySyncDispatch_instances (st : SyncState) (j : Nat)
    (m : HelixModeState) :
    (applySyncDispatch st j m).instances = setMode st.instances j m := by
  unfold applySyncDispatch
  cases hf : findMode st.instances j with
  | none =>
    have hnone : st.instances.find? (fun inst => inst.id == j) = none := by
      unfold findMode at hf
      cases hg : st.instances.find? (fun inst => inst.id == j) with
      | none => rfl
      | some x => rw [hg] at hf; cases hf
    have hall : ∀ inst ∈ st.instances, (inst.id == j) = false := by
      intro inst hm
      have := List.find?_eq_none.mp hnone inst hm
      exact Bool.not_eq_true _ ▸ by simpa using this
    exact (setMode_of_none st.instances j m hall).symm
  | some prev =>
    exact (modeSyncUpdate_preserves _ j prev m).1

/-- A dispatch preserves the settled count, the attempted-force-set log
and the warning log. -/
theorem applySyncDispatch_preserves (st : SyncState) (j : Nat)
    (m : HelixModeState) :
    (applySyncDispatch st j m).settled = st.settled ∧
      (applySyncDispatch st j m).forced = st.forced ∧
      (applySyncDispatch st j m).warnings = st.warnings := by
  unfold applySyncDispatch
  cases hf : findMode st.instances j with
  | none => exact ⟨rfl, rfl, rfl⟩
  | some prev =>
    exact ⟨(modeSyncUpdate_preserves _ j prev m).2.1,
      (modeSyncUpdate_preserves _ j prev m).2.2.1,
      (modeSyncUpdate_preserves _ j prev m).2.2.2⟩

/-- While the `isBroadcasting` flag is set, a broadcast-induced dispatch
on a follower leaves the flag set and schedules nothing. -/
theorem applySyncDispatch_flag_pending (st : SyncState) (j : Nat)
    (m : HelixModeState) (h : st.isBroadcasting = true) :
    (applySyncDispatch st j m).isBroadcasting = true ∧
      (applySyncDispatch st j m).pending = st.pending := by
  unfold applySyncDispatch
  cases hf : findMode st.instances j with
  | none => exact ⟨h, rfl⟩
  | some prev =>
    dsimp only
    rw [modeSyncUpdate_of_broadcasting _ j prev m (by simpa using h)]
    exact ⟨h, rfl⟩

/-- The broadcast loop's effect on the registry: every view in the
snapshot other than the origin whose dispatch does not throw is force-set
to the broadcast mode; every other view is untouched. -/
theorem broadcastGo_instances (o : Nat) (m : HelixModeState)
    (ids : List Nat) (st : SyncState) :
    (broadcastGo o m ids st).instances =
      st.instances.map (fun inst =>
        if inst.id ∈ ids ∧ inst.id ≠ o ∧
            instFailing st.instances inst.id = false
        then { inst with mode := m } else inst) := by
  induction ids generalizing st with
  | nil => simp [broadcastGo]
  | cons j rest ih =>
    simp only [broadcastGo]
    by_cases hjo : (j == o) = true
    · rw [if_pos hjo]
      rw [ih st]
      have hjo' : j = o := by simpa using hjo
      apply List.map_congr_left
      intro a _
      by_cases haj : a.id = j
      · simp [haj, hjo']
      · simp [List.mem_cons, haj]
    · rw [if_neg hjo]
      have hne : j ≠ o := by simpa using hjo
      cases hfail : instFailing st.instances j with
      | true =>
        rw [if_pos rfl]
        rw [ih _]
        apply List.map_congr_left
        intro a _
        by_cases haj : a.id = j
        · simp [haj, hfail, List.mem_cons]
        · simp [List.mem_cons, haj]
      | false =>
        rw [if_neg (by simp)]
        rw [ih _]
        rw [applySyncDispatch_instances]
        have hrec :
            ({ st with forced := st.forced ++ [j] } : SyncState).instances
              = st.instances := rfl
        rw [hrec]
        simp only [instFailing_setMode]
        unfold setMode
        rw [List.map_map]
        apply List.map_congr_left
        intro a _
        by_cases haj : a.id = j
        · simp [Function.comp, haj, hne, hfail, List.mem_cons]
        · simp [Function.comp, haj, List.mem_cons]

/-- While the re-entrancy flag is set, running the broadcast loop keeps it
set and schedules no further broadcast. -/
theorem broadcastGo_flag_pending (o : Nat) (m : HelixModeState)
    (ids : List Nat) :
    ∀ st : SyncState, st.isBroadcasting = true →
      (broadcastGo o m ids st).isBroadcasting = true ∧
        (broadcastGo o m ids st).pending = st.pending := by
  induction ids with
  | nil => exact fun st h => ⟨h, rfl⟩
  | cons j rest ih =>
    intro st h
    simp only [broadcastGo]
    by_cases hjo : (j == o) = true
    · rw [if_pos hjo]; exact ih st h
    · rw [if_neg hjo]
      cases hfail : instFailing st.instances j with
      | true => rw [if_pos rfl]; exact ih _ h
      | false =>
        rw [if_neg (by simp)]
        have hd := applySyncDispatch_flag_pending
          { st with forced := st.forced ++ [j] } j m (by simpa using h)
        obtain ⟨h1, h2⟩ := ih _ hd.1
        exact ⟨h1, by rw [h2, hd.2]⟩

/-- The broadcast loop itself never settles a broadcast. -/
theorem broadcastGo_settled (o : Nat) (m : HelixModeState) (ids : List Nat) :
    ∀ st : SyncState, (broadcastGo o m ids st).settled = st.settled := by
  induction ids with
  | nil => exact fun _ => rfl
  | cons j rest ih =>
    intro st
    simp only [broadcastGo]
    by_cases hjo : (j == o) = true
    · rw [if_pos hjo]; exact ih st
    · rw [if_neg hjo]
      cases hfail : instFailing st.instances j with
      | true => rw [if_pos rfl]; exact ih _
      | false =>
        rw [if_neg (by simp)]
        rw [ih _]
        exact (applySyncDispatch_preserves _ j m).1

/-- The broadcast loop attempts a force-set dispatch on exactly the
snapshot entries other than the origin, in order. -/
theorem broadcastGo_forced (o : Nat) (m : HelixModeState) (ids : List Nat) :
    ∀ st : SyncState,
      (broadcastGo o m ids st).forced =
        st.forced ++ ids.filter (fun j => !(j == o)) := by
  induction ids with
  | nil => intro st; simp [broadcastGo]
  | cons j rest ih =>
    intro st
    simp only [broadcastGo]
    by_cases hjo : (j == o) = true
    · rw [if_pos hjo]
      rw [ih st]
      simp [List.filter_cons, hjo]
    · rw [if_neg hjo]
      have hjo' : (j == o) = false := by simpa using hjo
      cases hfail : instFailing st.instances j with
      | true =>
        rw [if_pos rfl]
        rw [ih _]
        simp [List.filter_cons, hjo']
      | false =>
        rw [if_neg (by simp)]
        rw [ih _]
        rw [(applySyncDispatch_preserves _ j m).2.1]
        simp [List.filter_cons, hjo']

/-- The broadcast loop logs one caught-and-warned failure for exactly the
non-origin snapshot entries whose dispatch throws, in order, and never
aborts early. -/
theorem broadcastGo_warnings (o : Nat) (m : HelixModeState) (ids : List Nat) :
    ∀ st : SyncState,
      (broadcastGo o m ids st).warnings =
        st.warnings ++
          ids.filter (fun j => !(j == o) && instFailing st.instances j) := by
  induction ids with
  | nil => intro st; simp [broadcastGo]
  | cons j rest ih =>
    intro st
    simp only [broadcastGo]
    by_cases hjo : (j == o) = true
    · rw [if_pos hjo]
      rw [ih st]
      simp [List.filter_cons, hjo]
    · rw [if_neg hjo]
      have hjo' : (j == o) = false := by simpa using hjo
      cases hfail : instFailing st.instances j with
      | true =>
        rw [if_pos rfl]
        rw [ih _]
        simp [List.filter_cons, hjo', hfail]
      | false =>
        rw [if_neg (by simp)]
        rw [ih _]
        rw [(applySyncDispatch_preserves _ j m).2.2]
        have hinst : ∀ x : Nat,
            instFailing
              ((applySyncDispatch { st with forced := st.forced ++ [j] } j m).instances) x
              = instFailing st.instances x := by
          intro x
          rw [applySyncDispatch_instances]
          exact instFailing_setMode st.instances j m x
        rw [List.filter_congr (fun x _ => by rw [hinst x])]
        simp [List.filter_cons, hjo', hfail]

/-- If no registered view's dispatch throws and every view that shares the
origin's identity already holds the broadcast mode, then after
`broadcastModeChange` every registered view holds the broadcast mode. -/
theorem broadcast_sets_all_modes (o : Nat) (m : HelixModeState)
    (st : SyncState)
    (hok : ∀ inst ∈ st.instances, inst.failing = false)
    (horig : ∀ inst ∈ st.instances, inst.id = o → inst.mode = m) :
    ∀ b ∈ (broadcastModeChange st o m).instances, b.mode = m := by
  intro b hb
  unfold broadcastModeChange at hb
  rw [broadcastGo_instances] at hb
  obtain ⟨a, ha, rfl⟩ := List.mem_map.mp hb
  by_cases hao : a.id = o
  · split
    · rfl
    · exact horig a ha hao
  · rw [if_pos ⟨List.mem_map_of_mem SyncInstance.id ha, hao,
      instFailing_eq_false st.instances a.id hok⟩]

/-- C2: from a quiescent state (no broadcast in flight, nothing deferred)
with at least two registered views, none of which throws on dispatch, a
single primary local mode change (new mode differs from the previous one
in major or minor) on view `i`, once the deferred broadcast has run,
leaves every registered view holding the identical new mode, leaves
nothing deferred and the flag clear (the re-entrancy guard suppressed
every follower-induced re-broadcast), settles exactly one broadcast, and
force-set exactly the registered views other than the origin — never the
origin itself. -/
theorem c2_mode_mirror_fan_out (st : SyncState) (i : Nat)
    (m p : HelixModeState)
    (hflag : st.isBroadcasting = false) (hpend : st.pending = [])
    (hforced : st.forced = [])
    (hN : 2 ≤ st.instances.length)
    (hok : ∀ inst ∈ st.instances, inst.failing = false)
    (hfind : findMode st.instances i = some p)
    (hdiff : p.type ≠ m.type ∨ p.minor ≠ m.minor) :
    (∀ inst ∈ (settleLocalChange st i m).instances, inst.mode = m) ∧
      (settleLocalChange st i m).pending = [] ∧
      (settleLocalChange st i m).isBroadcasting = false ∧
      (settleLocalChange st i m).settled = st.settled + 1 ∧
      (settleLocalChange st i m).forced =
        (st.instances.map SyncInstance.id).filter (fun j => !(j == i)) ∧
      i ∉ (settleLocalChange st i m).forced := by
  have hc : (p.type != m.type || p.minor != m.minor) = true := by
    rcases hdiff with h | h <;> simp [bne_iff_ne, h]
  have hst1 : applySyncDispatch st i m =
      { st with instances := setMode st.instances i m,
                isBroadcasting := true, pending := [(i, m)] } := by
    unfold applySyncDispatch
    rw [hfind]
    dsimp only
    unfold modeSyncUpdate
    rw [if_pos hc, if_neg (by simp [hflag])]
    simp [hpend]
  have hrun : settleLocalChange st i m =
      { broadcastModeChange
          { st with instances := setMode st.instances i m,
                    isBroadcasting := true, pending := [] } i m
        with
        isBroadcasting := false,
        settled :=
          (broadcastModeChange
            { st with instances := setMode st.instances i m,
                      isBroadcasting := true, pending := [] } i m).settled
            + 1 } := by
    unfold settleLocalChange
    rw [hst1]
    rfl
  have hok' : ∀ inst ∈ setMode st.instances i m, inst.failing = false := by
    intro inst hm
    obtain ⟨a0, ha0, rfl⟩ := List.mem_map.mp (by simpa [setMode] using hm)
    by_cases hai : a0.id = i <;> simp [hai, hok a0 ha0]
  have horig' : ∀ inst ∈ setMode st.instances i m,
      inst.id = i → inst.mode = m := by
    intro inst hm hid
    obtain ⟨a0, ha0, rfl⟩ := List.mem_map.mp (by simpa [setMode] using hm)
    by_cases hai : a0.id = i
    · simp [hai]
    · rw [if_neg hai] at hid ⊢
      exact absurd hid hai
  have hsnap : (setMode st.instances i m).map SyncInstance.id
      = st.instances.map SyncInstance.id := setMode_map_id st.instances i m
  rw [hrun]
  refine ⟨?_, ?_, rfl, ?_, ?_, ?_⟩
  · intro b hb
    exact broadcast_sets_all_modes i m _ hok' horig' b hb
  · have := (broadcastGo_flag_pending i m
      ((setMode st.instances i m).map SyncInstance.id)
      { st with instances := setMode st.instances i m,
                isBroadcasting := true, pending := [] } rfl).2
    simpa [broadcastModeChange] using this
  · have := broadcastGo_settled i m
      ((setMode st.instances i m).map SyncInstance.id)
      { st with instances := setMode st.instances i m,
                isBroadcasting := true, pending := [] }
    simp only [broadcastModeChange]
    rw [this]
  · have := broadcastGo_forced i m
      ((setMode st.instances i m).map SyncInstance.id)
      { st with instances := setMode st.instances i m,
                isBroadcasting := true, pending := [] }
    simp only [broadcastModeChange]
    rw [this]
    simp [hforced, hsnap]
  · intro hmem
    have hforcedEq := broadcastGo_forced i m
      ((setMode st.instances i m).map SyncInstance.id)
      { st with instances := setMode st.instances i m,
                isBroadcasting := true, pending := [] }
    simp only [broadcastModeChange] at hmem
    rw [hforcedEq] at hmem
    simp [hforced] at hmem

/-- C2 witness: two registered views, view 1 switches from
(Normal, Normal-minor) to (Insert, Normal-minor). -/
theorem c2_mode_mirror_fan_out_witness :
    2 ≤ (SyncState.mk
        [⟨1, ⟨0, 2⟩, false⟩, ⟨2, ⟨0, 2⟩, false⟩] false [] 0 [] []).instances.length ∧
      ((∀ inst ∈ (settleLocalChange
          (SyncState.mk [⟨1, ⟨0, 2⟩, false⟩, ⟨2, ⟨0, 2⟩, false⟩] false [] 0 [] [])
          1 ⟨1, 2⟩).instances, inst.mode = ⟨1, 2⟩) ∧
        (settleLocalChange
          (SyncState.mk [⟨1, ⟨0, 2⟩, false⟩, ⟨2, ⟨0, 2⟩, false⟩] false [] 0 [] [])
          1 ⟨1, 2⟩).pending = [] ∧
        (settleLocalChange
          (SyncState.mk [⟨1, ⟨0, 2⟩, false⟩, ⟨2, ⟨0, 2⟩, false⟩] false [] 0 [] [])
          1 ⟨1, 2⟩).isBroadcasting = false ∧
        (settleLocalChange
          (SyncState.mk [⟨1, ⟨0, 2⟩, false⟩, ⟨2, ⟨0, 2⟩, false⟩] false [] 0 [] [])
          1 ⟨1, 2⟩).settled =
          (SyncState.mk
            [⟨1, ⟨0, 2⟩, false⟩, ⟨2, ⟨0, 2⟩, false⟩] false [] 0 [] []).settled + 1 ∧
        (settleLocalChange
          (SyncState.mk [⟨1, ⟨0, 2⟩, false⟩, ⟨2, ⟨0, 2⟩, false⟩] false [] 0 [] [])
          1 ⟨1, 2⟩).forced =
          (((SyncState.mk
            [⟨1, ⟨0, 2⟩, false⟩, ⟨2, ⟨0, 2⟩, false⟩] false [] 0 [] []).instances.map
              SyncInstance.id).filter (fun j => !(j == 1))) ∧
        1 ∉ (settleLocalChange
          (SyncState.mk [⟨1, ⟨0, 2⟩, false⟩, ⟨2, ⟨0, 2⟩, false⟩] false [] 0 [] [])
          1 ⟨1, 2⟩).forced) :=
  ⟨by decide,
    c2_mode_mirror_fan_out
      (SyncState.mk [⟨1, ⟨0, 2⟩, false⟩, ⟨2, ⟨0, 2⟩, false⟩] false [] 0 [] [])
      1 ⟨1, 2⟩ ⟨0, 2⟩ rfl rfl rfl (by decide) (by decide) rfl (by decide)⟩

/-- C9: during a broadcast, a follower whose dispatch throws is caught and
logged (`Logger.warn` with the exception) — it is exactly the follower
recorded in the warning log — and the broadcast still force-sets every
other non-origin registered view whose dispatch does not throw: one
follower failure never aborts the iteration. -/
theorem c9_broadcast_partial_failure (st : SyncState) (origin k : Nat)
    (m : HelixModeState)
    (hw : st.warnings = [])
    (hko : k ≠ origin)
    (hkfail : instFailing st.instances k = true)
    (hothers : ∀ inst ∈ st.instances, inst.id ≠ k → inst.failing = false) :
    k ∈ (broadcastModeChange st origin m).warnings ∧
      (∀ j ∈ (broadcastModeChange st origin m).warnings, j = k) ∧
      (∀ inst ∈ (broadcastModeChange st origin m).instances,
        inst.id ≠ origin → instFailing st.instances inst.id = false →
        inst.mode = m) := by
  have hwarn := broadcastGo_warnings origin m
    (st.instances.map SyncInstance.id) st
  have hBC : broadcastModeChange st origin m =
      broadcastGo origin m (st.instances.map SyncInstance.id) st := rfl
  refine ⟨?_, ?_, ?_⟩
  · rw [hBC, hwarn, hw]
    simp only [List.nil_append]
    apply List.mem_filter.mpr
    refine ⟨?_, by simp [hkfail, hko]⟩
    obtain ⟨inst, hmem, hid, -⟩ := exists_of_instFailing st.instances k hkfail
    exact hid ▸ List.mem_map_of_mem SyncInstance.id hmem
  · intro j hj
    rw [hBC, hwarn, hw] at hj
    simp only [List.nil_append] at hj
    obtain ⟨-, hcond⟩ := List.mem_filter.mp hj
    have hjf : instFailing st.instances j = true := by
      simp only [Bool.and_eq_true] at hcond
      exact hcond.2
    obtain ⟨inst, hmem, hid, hfl⟩ := exists_of_instFailing st.instances j hjf
    by_contra hne
    have : inst.failing = false := hothers inst hmem (hid ▸ hne)
    rw [this] at hfl
    cases hfl
  · intro b hb hbo hbfail
    rw [hBC, broadcastGo_instances] at hb
    obtain ⟨a, ha, rfl⟩ := List.mem_map.mp hb
    by_cases hcond : a.id ∈ st.instances.map SyncInstance.id ∧ a.id ≠ origin ∧
        instFailing st.instances a.id = false
    · rw [if_pos hcond]
    · rw [if_neg hcond] at hbo hbfail ⊢
      exact absurd ⟨List.mem_map_of_mem SyncInstance.id ha, hbo, hbfail⟩ hcond

/-- C9 witness: three registered views; the broadcast from view 1 finds
view 2 throwing and still force-sets view 3. -/
theorem c9_broadcast_partial_failure_witness :
    instFailing (SyncState.mk
        [⟨1, ⟨0, 2⟩, false⟩, ⟨2, ⟨0, 2⟩, true⟩, ⟨3, ⟨0, 2⟩, false⟩]
        false [] 0 [] []).instances 2 = true ∧
      (2 ∈ (broadcastModeChange
          (SyncState.mk
            [⟨1, ⟨0, 2⟩, false⟩, ⟨2, ⟨0, 2⟩, true⟩, ⟨3, ⟨0, 2⟩, false⟩]
            false [] 0 [] []) 1 ⟨1, 2⟩).warnings ∧
        (∀ j ∈ (broadcastModeChange
            (SyncState.mk
              [⟨1, ⟨0, 2⟩, false⟩, ⟨2, ⟨0, 2⟩, true⟩, ⟨3, ⟨0, 2⟩, false⟩]
              false [] 0 [] []) 1 ⟨1, 2⟩).warnings, j = 2) ∧
        (∀ inst ∈ (broadcastModeChange
            (SyncState.mk
              [⟨1, ⟨0, 2⟩, false⟩, ⟨2, ⟨0, 2⟩, true⟩, ⟨3, ⟨0, 2⟩, false⟩]
              false [] 0 [] []) 1 ⟨1, 2⟩).instances,
          inst.id ≠ 1 →
          instFailing (SyncState.mk
            [⟨1, ⟨0, 2⟩, false⟩, ⟨2, ⟨0, 2⟩, true⟩, ⟨3, ⟨0, 2⟩, false⟩]
            false [] 0 [] []).instances inst.id = false →
          inst.mode = ⟨1, 2⟩)) :=
  ⟨by decide,
    c9_broadcast_partial_failure
      (SyncState.mk
        [⟨1, ⟨0, 2⟩, false⟩, ⟨2, ⟨0, 2⟩, true⟩, ⟨3, ⟨0, 2⟩, false⟩]
        false [] 0 [] [])
      1 2 ⟨1, 2⟩ rfl (by decide) (by decide) (by decide)⟩

/-- C10 witness: Ctrl-[ pressed in Insert mode on a concrete state. -/
theorem c10_ctrlBracket_witness :
    isInHelixInsertMode
        { mode := some ⟨1, 2⟩, docLength := 3, sel := ⟨0, 1⟩,
          cellId := 2, dispatched := [] } = true ∧
      ctrlBracketRun
        { mode := some ⟨1, 2⟩, docLength := 3, sel := ⟨0, 1⟩,
          cellId := 2, dispatched := [] } =
        (true, { mode := some ⟨0, 2⟩, docLength := 3, sel := ⟨0, 1⟩,
                 cellId := 2, dispatched := [⟨0, 2⟩] }) :=
  ⟨by decide,
    (c10_ctrlBracket.2.2.2.2
      { mode := some ⟨1, 2⟩, docLength := 3, sel := ⟨0, 1⟩,
        cellId := 2, dispatched := [] }).1 (by decide)⟩

end HelixSpec
